import Mathlib

/-!
Verification of the grindery-delight-api validation pipeline and order/offer
lifecycle, shallowly embedded from the JavaScript source (orders router,
webhook router, orders/offers validators).  Request field values are modelled
as a small JSON-like type, request sections as association lists, the Mongo
collections as Lean lists, and each Express handler as a pure function from
its inputs (recorded validation errors, request fields, caller identity,
store) to the sequence of response sends it performs, the resulting store and
the store operations it issues.  An Express response is decided by the first
`res.send` that runs, so the client-visible response is the head of the send
list.
-/

namespace Delight

/-- A JSON-ish request field value (arrays/objects are not needed by the
orders and webhook endpoints modelled here). -/
inductive JVal
  | str (s : String)
  | num (n : Int)
  | bool (b : Bool)
deriving DecidableEq

/-- A request section (body / query / params) as sent by the client:
an association list from field name to value. -/
abbrev RMap := List (String × JVal)

/-- First value bound to a key, `none` when the field is absent. -/
def RMap.get (m : RMap) (k : String) : Option JVal :=
  (m.find? (fun p => p.1 == k)).map Prod.snd

/-- The keys of a section, in order of appearance. -/
def RMap.keys (m : RMap) : List String := m.map Prod.fst

/-- Read a field as a string, defaulting to `""`; route handlers only reach
this read after validation has established the field is a string. -/
def getStr (m : RMap) (k : String) : String :=
  match m.get k with
  | some (.str s) => s
  | _ => ""

/-- Error location, mirroring express-validator locations. -/
inductive Loc
  | body | query | params
deriving DecidableEq

def locName : Loc → String
  | .body => "body"
  | .query => "query"
  | .params => "params"

/-- One structured validation error `{location, param, msg}` as returned by
`validateResult` (src: validators-utils, `errors.array()`). -/
structure VError where
  location : Loc
  param : String
  msg : String
deriving DecidableEq

/-- The check kinds used by the order validators in the source
(`isString`, `notEmpty`, `matches /^(...)$/`). -/
inductive Check
  | isString
  | notEmpty
  | matchesOneOf (allowed : List String)
deriving DecidableEq

/-- Evaluation of one check against the (possibly absent) raw value.
`notEmpty` fails exactly on an absent field or the empty string; an
anchored alternation `matches` passes on a string in the allowed list.
An absent field passes `matchesOneOf`: the test suite posts order bodies
without `status` and expects success (src/src/test/orders.js). -/
def checkPasses : Check → Option JVal → Bool
  | .isString, some (.str _) => true
  | .isString, _ => false
  | .notEmpty, none => false
  | .notEmpty, some (.str s) => !(s == "")
  | .notEmpty, some _ => true
  | .matchesOneOf l, some (.str s) => l.contains s
  | .matchesOneOf _, none => true
  | .matchesOneOf _, some _ => false

/-- One declared validation chain: a field in a section with its ordered
checks, each carrying its `withMessage` text. -/
structure Rule where
  loc : Loc
  field : String
  checks : List (Check × String)

/-- A request: its three sections. -/
structure Req where
  body : RMap
  query : RMap
  params : RMap

def sectOf (r : Req) : Loc → RMap
  | .body => r.body
  | .query => r.query
  | .params => r.params

/-- The checks of a rule that fail on the request, in declaration order. -/
def failedChecks (r : Req) (rule : Rule) : List (Check × String) :=
  rule.checks.filter (fun cm => !(checkPasses cm.1 ((sectOf r rule.loc).get rule.field)))

/-- The errors one chain contributes: one error per failed check. -/
def evalRule (r : Req) (rule : Rule) : List VError :=
  (failedChecks r rule).map (fun cm => ⟨rule.loc, rule.field, cm.2⟩)

/-- Run all declared chains in order, collecting every error
(express-validator runs every chain and every check; `validateResult`
returns `errors.array()`). -/
def runRules (rules : List Rule) (r : Req) : List VError :=
  match rules with
  | [] => []
  | rl :: rest => evalRule r rl ++ runRules rest r

/-- The number of independently-violated checks of a request. -/
def violations (rules : List Rule) (r : Req) : Nat :=
  (rules.map (fun rl => (failedChecks r rl).length)).sum

def joinComma : List String → String
  | [] => ""
  | [x] => x
  | x :: xs => x ++ ", " ++ joinComma xs

/-- Modelled from the spec: `validateFields` lives in
src/utils/validators-utils.js, which is not included under src/ (only its
callers in src/src/validators/offers.validator.js are).  Spec §4.2: all keys
of a section that are not in the allow-list are grouped into a single error
whose message lists the extra keys comma-joined; sections are checked
independently. -/
def validateFields (m : RMap) (allowed : List String) (loc : Loc) : List VError :=
  let extras := m.keys.filter (fun k => !(allowed.contains k))
  if extras.isEmpty then []
  else [⟨loc, "",
    "The following fields are not allowed in " ++ locName loc ++ ": " ++ joinComma extras⟩]

/-- The field chains of `createOrderValidator`
(src/src/validators/offers.validator.js, orders validator document,
lines 105-144), in declaration order. -/
def createOrderRules : List Rule :=
  [⟨.body, "status",
      [(.matchesOneOf ["pending", "success", "failure"],
        "must be one of \"pending\", \"success\" or \"failure\"")]⟩,
   ⟨.body, "orderId", [(.isString, "must be string value")]⟩,
   ⟨.body, "amountTokenDeposit",
      [(.isString, "must be string value"), (.notEmpty, "must not be empty")]⟩,
   ⟨.body, "addressTokenDeposit",
      [(.isString, "must be string value"), (.notEmpty, "must not be empty")]⟩,
   ⟨.body, "chainIdTokenDeposit",
      [(.isString, "must be string value"), (.notEmpty, "must not be empty")]⟩,
   ⟨.body, "destAddr",
      [(.isString, "must be string value"), (.notEmpty, "must not be empty")]⟩,
   ⟨.body, "amountTokenOffer",
      [(.isString, "must be string value"), (.notEmpty, "must not be empty")]⟩,
   ⟨.body, "offerId",
      [(.isString, "must be string value"), (.notEmpty, "must not be empty")]⟩,
   ⟨.body, "hash",
      [(.isString, "must be string value"), (.notEmpty, "must not be empty")]⟩]

/-- The body allow-list of `createOrderValidator` (lines 148-158). -/
def orderAllowedFields : List String :=
  ["status", "orderId", "amountTokenDeposit", "addressTokenDeposit",
   "chainIdTokenDeposit", "destAddr", "amountTokenOffer", "offerId", "hash"]

/-- The full `createOrderValidator` output on a request: field-rule errors in
declaration order, then the allow-list customs for body, query and params
(declared in that order at lines 145-170). -/
def createOrderValidator (r : Req) : List VError :=
  runRules createOrderRules r
    ++ validateFields r.body orderAllowedFields .body
    ++ validateFields r.query [] .query
    ++ validateFields r.params [] .params

/-- The single field chain of `setOrderCompleteValidator`
(src/src/validators/offers.validator.js, orders validator document,
lines 215-219). -/
def setOrderCompleteRules : List Rule :=
  [⟨.body, "orderId",
      [(.isString, "must be string value"), (.notEmpty, "must not be empty")]⟩]

/-- The full `setOrderCompleteValidator` (lines 214-232): its body
allow-list admits ONLY `orderId` — `completionHash` is not allowed. -/
def setOrderCompleteValidator (r : Req) : List VError :=
  runRules setOrderCompleteRules r
    ++ validateFields r.body ["orderId"] .body
    ++ validateFields r.query [] .query
    ++ validateFields r.params [] .params

/-- An order document as inserted by `POST /orders` and mutated by the
webhook and completion endpoints (src: orders router, part_002). -/
structure Order where
  orderId : String
  userId : String
  offerId : String
  amountTokenDeposit : String
  addressTokenDeposit : String
  chainIdTokenDeposit : String
  destAddr : String
  amountTokenOffer : String
  hash : String
  status : String
  isComplete : Bool
  completionHash : Option JVal
  date : Nat
deriving DecidableEq

/-- An offer document, restricted to the fields the webhook handlers touch
(src: webhook router in hooks.mjs). -/
structure Offer where
  offerId : String
  userId : String
  chainId : String
  min : String
  max : String
  tokenAddress : String
  hash : String
  isActive : Bool
  status : String
deriving DecidableEq

namespace ORDER_STATUS

/-- Modelled from the spec: the `ORDER_STATUS` constants come from
src/utils/orders-utils.js, which is not included under src/.  The values
follow the spec §4.4 state-machine names (`PENDING → SUCCESS → COMPLETION`)
in the lowercase spelling the webhook router writes literally
(`status: 'success'`) and the status validators match
(`pending|success|failure`, `success|failure|completion|completionFailure`). -/
def PENDING : String := "pending"

def SUCCESS : String := "success"

def COMPLETION : String := "completion"

end ORDER_STATUS

/-- A response body, covering the shapes the modelled handlers send. -/
inductive RBody
  | errors (es : List VError)
  | message (m : String)
  | insertAck
  | updateAck (matched modified : Nat)
  | deleteAck (deleted : Nat)
  | ordersPage (orders : List Order) (totalCount : Nat)
deriving DecidableEq

/-- One `res.status(s).send(b)` performed by a handler. -/
structure Send where
  status : Nat
  body : RBody
deriving DecidableEq

/-- Outcome of an orders-route handler: the sends it performs in order, the
orders store afterwards, counts of the store operations it issued, and the
notification dispatches it fired. -/
structure OrdersOut where
  sends : List Send
  store : List Order
  inserts : Nat
  updateCalls : Nat
  deleteCalls : Nat
  dispatches : List String
deriving DecidableEq

/-- Outcome of an offers-webhook handler. -/
structure OffersOut where
  sends : List Send
  store : List Offer
  updateCalls : Nat
  dispatches : List String
deriving DecidableEq

/-- The response the client receives: Express commits the first completed
`send`; later sends on the same response fail. -/
def clientResp (o : OrdersOut) : Option Send := o.sends.head?

def offerResp (o : OffersOut) : Option Send := o.sends.head?

/-- Total state-mutating store operations issued by an orders handler. -/
def mutationCalls (o : OrdersOut) : Nat := o.inserts + o.updateCalls + o.deleteCalls

/-- Replace the first occurrence of a document (Mongo `updateOne` with the
found document as filter). -/
def replaceFirst {α : Type} [DecidableEq α] (l : List α) (old new : α) : List α :=
  match l with
  | [] => []
  | x :: xs => if x = old then new :: xs else x :: replaceFirst xs old new

/-- Remove the first occurrence of a document (Mongo `deleteOne`). -/
def removeFirst {α : Type} [DecidableEq α] (l : List α) (x : α) : List α :=
  match l with
  | [] => []
  | y :: ys => if y = x then ys else y :: removeFirst ys x

/-- Contiguous-sublist test on character lists. -/
def containsSub (hay pat : List Char) : Bool :=
  match hay with
  | [] => pat.isEmpty
  | _ :: t => pat.isPrefixOf hay || containsSub t pat

/-- Lowercase a string character-wise (kernel-reducible spelling of
`String.toLower`). -/
def lowerChars (s : String) : List Char := s.toList.map Char.toLower

/-- Case-insensitive equality of two strings. -/
def lowerEq (a b : String) : Bool := lowerChars a == lowerChars b

/-- The Mongo filter `{field: {$regex: pat, $options: 'i'}}` for a pattern
without regex metacharacters (caller identities are plain strings): a
case-insensitive substring match of the pattern in the field. -/
def ciRegexMatch (field pat : String) : Bool :=
  containsSub (lowerChars field) (lowerChars pat)

/-- Mongo `.sort({date: -1})`: a date-descending permutation of the input. -/
def sortDateDesc (l : List Order) : List Order :=
  l.insertionSort (fun a b => b.date ≤ a.date)

/-- Mongo `.limit(n)`: `limit(0)` means no limit (`+req.query.limit || 0`
defaults absent or non-numeric limits to 0). -/
def applyLimit (limit : Nat) (l : List Order) : List Order :=
  if limit = 0 then l else l.take limit

/-- The document `POST /orders` inserts: the request body fields, plus
`date`, `userId` from the authenticated identity, `isComplete=false` and
`status=PENDING` set by the route (part_002 lines 44-48; the route overwrites
any client-supplied `status`). -/
def newOrderDoc (body : RMap) (callerId : String) (now : Nat) : Order :=
  { orderId := getStr body "orderId"
    userId := callerId
    offerId := getStr body "offerId"
    amountTokenDeposit := getStr body "amountTokenDeposit"
    addressTokenDeposit := getStr body "addressTokenDeposit"
    chainIdTokenDeposit := getStr body "chainIdTokenDeposit"
    destAddr := getStr body "destAddr"
    amountTokenOffer := getStr body "amountTokenOffer"
    hash := getStr body "hash"
    status := ORDER_STATUS.PENDING
    isComplete := false
    completionHash := none
    date := now }

/-- `POST /orders` (part_002 lines 24-50).  After the validation gate, the
duplicate check sends a 404 when an order with the same non-empty `orderId`
exists — but the branch has no `return`, so the handler falls through and
inserts the new document regardless; the trailing 200 send is then ignored
by Express because the 404 response was already committed. -/
def createOrder (errs : List VError) (body : RMap) (callerId : String) (now : Nat)
    (store : List Order) : OrdersOut :=
  if errs.isEmpty then
    let dup := (store.find? (fun o => o.orderId == getStr body "orderId")).isSome
                 && !(getStr body "orderId" == "")
    let dupSends : List Send :=
      if dup then [⟨404, .message "This order already exists."⟩] else []
    { sends := dupSends ++ [⟨200, .insertAck⟩]
      store := store ++ [newOrderDoc body callerId now]
      inserts := 1, updateCalls := 0, deleteCalls := 0, dispatches := [] }
  else
    { sends := [⟨400, .errors errs⟩], store := store
      inserts := 0, updateCalls := 0, deleteCalls := 0, dispatches := [] }

/-- `POST /orders` with its attached validator middleware. -/
def createOrderEndpoint (r : Req) (callerId : String) (now : Nat)
    (store : List Order) : OrdersOut :=
  createOrder (createOrderValidator r) r.body callerId now store

/-- `GET /orders/user` (part_002 lines 52-76).  The recorded validation
errors are a parameter because the middleware records them, but the handler
never calls `validateResult`: the query always runs.  The filter is the
case-insensitive `$regex` on `userId`; results are date-descending and
paged by `skip`/`limit`.  (The `getOrdersWithOffers` decoration, absent
from src/, pairs each order with its offer and is dropped here: it does not
change which orders are returned.) -/
def getUserOrders (errs : List VError) (callerId : String) (offset limit : Nat)
    (store : List Order) : OrdersOut :=
  let matching := store.filter (fun o => ciRegexMatch o.userId callerId)
  let page := applyLimit limit ((sortDateDesc matching).drop offset)
  { sends := [⟨200, .ordersPage page matching.length⟩], store := store
    inserts := 0, updateCalls := 0, deleteCalls := 0, dispatches := [] }

/-- The outcome of `JSON.parse(req.query.isActiveOffers)` at part_002 line
141.  `JSON.parse` is an external ECMAScript built-in, so the handler is
modelled over its outcome on the raw query value: the parse returns a truthy
value, returns a falsy value (`false`, `0`, `null`, ...), or THROWS on a
value that is not valid JSON (e.g. `"abc"`). -/
inductive ParseOutcome
  | truthy
  | falsy
  | invalid
deriving DecidableEq

/-- `GET /orders/liquidity-provider` (part_002 lines 129-166): two-step
join — the caller's offers (optionally filtered through
`JSON.parse(req.query.isActiveOffers)`), then the orders whose `offerId` is
among those offers' ids.  Like `GET /orders/user`, the handler never
consults the recorded validation errors.  `isActiveOffers` is `none` when
the query value is absent or the empty string (the outer ternary is falsy),
otherwise the `JSON.parse` outcome on it; when the parse THROWS
(`.invalid`), the async handler aborts before any store read or send — no
response is produced at all. -/
def getLiquidityProviderOrders (errs : List VError) (callerId : String)
    (isActiveOffers : Option ParseOutcome) (offset limit : Nat)
    (store : List Order) (offers : List Offer) : OrdersOut :=
  match isActiveOffers with
  | some .invalid =>
    { sends := [], store := store
      inserts := 0, updateCalls := 0, deleteCalls := 0, dispatches := [] }
  | parsed =>
    let myOffers := offers.filter (fun f =>
      ciRegexMatch f.userId callerId &&
        (match parsed with
         | none => true
         | some .truthy => f.isActive == true
         | some .falsy => f.isActive == false
         | some .invalid => true))
    let ids := myOffers.map (fun f => f.offerId)
    let matching := store.filter (fun o => ids.contains o.offerId)
    let page := applyLimit limit ((sortDateDesc matching).drop offset)
    { sends := [⟨200, .ordersPage page matching.length⟩], store := store
      inserts := 0, updateCalls := 0, deleteCalls := 0, dispatches := [] }

/-- `PUT /orders/complete` (part_002 lines 169-203): after the validation
gate, find the caller's order by `orderId` with `status=SUCCESS`; 404
`"No order found"` when absent, otherwise set `status=COMPLETION` and
`completionHash` from the body and acknowledge the update. -/
def orderComplete (errs : List VError) (body : RMap) (callerId : String)
    (store : List Order) : OrdersOut :=
  if errs.isEmpty then
    match store.find? (fun o =>
        o.orderId == getStr body "orderId"
          && ciRegexMatch o.userId callerId
          && o.status == ORDER_STATUS.SUCCESS) with
    | none =>
      { sends := [⟨404, .message "No order found"⟩], store := store
        inserts := 0, updateCalls := 0, deleteCalls := 0, dispatches := [] }
    | some o =>
      let updated := { o with status := ORDER_STATUS.COMPLETION
                              completionHash := body.get "completionHash" }
      { sends := [⟨200, .updateAck 1 (if updated = o then 0 else 1)⟩]
        store := replaceFirst store o updated
        inserts := 0, updateCalls := 1, deleteCalls := 0, dispatches := [] }
  else
    { sends := [⟨400, .errors errs⟩], store := store
      inserts := 0, updateCalls := 0, deleteCalls := 0, dispatches := [] }

/-- `PUT /orders/complete` with its attached validator middleware. -/
def orderCompleteEndpoint (r : Req) (callerId : String)
    (store : List Order) : OrdersOut :=
  orderComplete (setOrderCompleteValidator r) r.body callerId store

/-- `DELETE /orders/:orderId` (part_002 lines 205-229): validation gate,
then ownership-scoped lookup; delete on match, 404 `"No order found"`
otherwise. -/
def deleteOrder (errs : List VError) (orderIdParam : String) (callerId : String)
    (store : List Order) : OrdersOut :=
  if errs.isEmpty then
    match store.find? (fun o =>
        o.orderId == orderIdParam && ciRegexMatch o.userId callerId) with
    | none =>
      { sends := [⟨404, .message "No order found"⟩], store := store
        inserts := 0, updateCalls := 0, deleteCalls := 0, dispatches := [] }
    | some o =>
      { sends := [⟨200, .deleteAck 1⟩], store := removeFirst store o
        inserts := 0, updateCalls := 0, deleteCalls := 1, dispatches := [] }
  else
    { sends := [⟨400, .errors errs⟩], store := store
      inserts := 0, updateCalls := 0, deleteCalls := 0, dispatches := [] }

/-- `PUT /webhook/order` (hooks.mjs lines 291-330): find the order by
transaction `hash` (not by `orderId`), set the counterparty `orderId`
(`_idTrade`) and `status='success'`.  On no match the handler sends the 404
without returning, then still issues the update against the empty match and
attempts a 200 send that Express discards (the 404 was already committed);
`modifiedCount` stays 0 so no dispatch fires. -/
def webhookOrder (errs : List VError) (idTrade txHash : String)
    (store : List Order) : OrdersOut :=
  if errs.isEmpty then
    match store.find? (fun o => o.hash == txHash) with
    | none =>
      { sends := [⟨404, .message "No order found"⟩, ⟨200, .updateAck 0 0⟩]
        store := store
        inserts := 0, updateCalls := 1, deleteCalls := 0, dispatches := [] }
    | some o =>
      let updated := { o with orderId := idTrade, status := "success" }
      let modified := if updated = o then 0 else 1
      { sends := [⟨200, .updateAck 1 modified⟩]
        store := replaceFirst store o updated
        inserts := 0, updateCalls := 1, deleteCalls := 0
        dispatches := if modified > 0 then ["order success"] else [] }
  else
    { sends := [⟨400, .errors errs⟩], store := store
      inserts := 0, updateCalls := 0, deleteCalls := 0, dispatches := [] }

/-- `PUT /webhook/offer/max-price` (hooks.mjs lines 48-82).  This is the one
offer hook that RETURNS on a missing offer: `if (!offer) return
res.status(400).send({msg: 'No offer found'})`, so no update is issued. -/
def webhookOfferMaxPrice (errs : List VError) (idOffer : String)
    (upperMaxFn : Option String) (store : List Offer) : OffersOut :=
  if errs.isEmpty then
    match store.find? (fun f => f.offerId == idOffer) with
    | none =>
      { sends := [⟨400, .message "No offer found"⟩], store := store
        updateCalls := 0, dispatches := [] }
    | some f =>
      let updated := { f with max := upperMaxFn.getD f.max }
      let modified := if updated = f then 0 else 1
      { sends := [⟨200, .updateAck 1 modified⟩]
        store := replaceFirst store f updated
        updateCalls := 1
        dispatches := if modified > 0 then ["maxPrice"] else [] }
  else
    { sends := [⟨400, .errors errs⟩], store := store
      updateCalls := 0, dispatches := [] }

/-- `PUT /webhook/offer/min-price` (hooks.mjs lines 85-123).  On a missing
offer it sends 400 `"No offer found"` WITHOUT returning and falls through to
issue the update against the empty match; the trailing 200 send is discarded
by Express. -/
def webhookOfferMinPrice (errs : List VError) (idOffer : String)
    (lowerLimitFn : Option String) (store : List Offer) : OffersOut :=
  if errs.isEmpty then
    match store.find? (fun f => f.offerId == idOffer) with
    | none =>
      { sends := [⟨400, .message "No offer found"⟩, ⟨200, .updateAck 0 0⟩]
        store := store, updateCalls := 1, dispatches := [] }
    | some f =>
      let updated := { f with min := lowerLimitFn.getD f.min }
      let modified := if updated = f then 0 else 1
      { sends := [⟨200, .updateAck 1 modified⟩]
        store := replaceFirst store f updated
        updateCalls := 1
        dispatches := if modified > 0 then ["minPrice"] else [] }
  else
    { sends := [⟨400, .errors errs⟩], store := store
      updateCalls := 0, dispatches := [] }

/-- `PUT /webhook/offer/token` (hooks.mjs lines 126-164): same fall-through
shape as min-price, updating `tokenAddress`. -/
def webhookOfferToken (errs : List VError) (idOffer : String)
    (token : Option String) (store : List Offer) : OffersOut :=
  if errs.isEmpty then
    match store.find? (fun f => f.offerId == idOffer) with
    | none =>
      { sends := [⟨400, .message "No offer found"⟩, ⟨200, .updateAck 0 0⟩]
        store := store, updateCalls := 1, dispatches := [] }
    | some f =>
      let updated := { f with tokenAddress := token.getD f.tokenAddress }
      let modified := if updated = f then 0 else 1
      { sends := [⟨200, .updateAck 1 modified⟩]
        store := replaceFirst store f updated
        updateCalls := 1
        dispatches := if modified > 0 then ["token"] else [] }
  else
    { sends := [⟨400, .errors errs⟩], store := store
      updateCalls := 0, dispatches := [] }

/-- `PUT /webhook/offer/chain` (hooks.mjs lines 167-205): same fall-through
shape as min-price, updating `chainId`. -/
def webhookOfferChain (errs : List VError) (idOffer : String)
    (chainId : Option String) (store : List Offer) : OffersOut :=
  if errs.isEmpty then
    match store.find? (fun f => f.offerId == idOffer) with
    | none =>
      { sends := [⟨400, .message "No offer found"⟩, ⟨200, .updateAck 0 0⟩]
        store := store, updateCalls := 1, dispatches := [] }
    | some f =>
      let updated := { f with chainId := chainId.getD f.chainId }
      let modified := if updated = f then 0 else 1
      { sends := [⟨200, .updateAck 1 modified⟩]
        store := replaceFirst store f updated
        updateCalls := 1
        dispatches := if modified > 0 then ["chain"] else [] }
  else
    { sends := [⟨400, .errors errs⟩], store := store
      updateCalls := 0, dispatches := [] }

/-- `PUT /webhook/offer/activation-deactivation` (hooks.mjs lines 208-246):
fall-through shape, updating `isActive`; its missing-offer report is 404
`"Not found."` rather than 400 `"No offer found"`. -/
def webhookOfferActivation (errs : List VError) (idOffer : String)
    (isActive : Option Bool) (store : List Offer) : OffersOut :=
  if errs.isEmpty then
    match store.find? (fun f => f.offerId == idOffer) with
    | none =>
      { sends := [⟨404, .message "Not found."⟩, ⟨200, .updateAck 0 0⟩]
        store := store, updateCalls := 1, dispatches := [] }
    | some f =>
      let updated := { f with isActive := isActive.getD f.isActive }
      let modified := if updated = f then 0 else 1
      { sends := [⟨200, .updateAck 1 modified⟩]
        store := replaceFirst store f updated
        updateCalls := 1
        dispatches := if modified > 0 then ["status"] else [] }
  else
    { sends := [⟨400, .errors errs⟩], store := store
      updateCalls := 0, dispatches := [] }

/-- A fully valid `POST /orders` body with `orderId="X"` (field values follow
the fixtures in src/src/test/orders.js). -/
def demoOrderBody : RMap :=
  [("status", .str "pending"), ("orderId", .str "X"),
   ("amountTokenDeposit", .str "10"), ("addressTokenDeposit", .str "0x123"),
   ("chainIdTokenDeposit", .str "1"), ("destAddr", .str "0x456"),
   ("amountTokenOffer", .str "20"), ("offerId", .str "5678"),
   ("hash", .str "0x789")]

/-- The valid demo creation request (empty query and params). -/
def demoOrderReq : Req := ⟨demoOrderBody, [], []⟩

/-- The demo body with an empty orderId (all other fields valid). -/
def emptyIdBody : RMap :=
  [("status", .str "pending"), ("orderId", .str ""),
   ("amountTokenDeposit", .str "10"), ("addressTokenDeposit", .str "0x123"),
   ("chainIdTokenDeposit", .str "1"), ("destAddr", .str "0x456"),
   ("amountTokenOffer", .str "20"), ("offerId", .str "5678"),
   ("hash", .str "0x789")]

/-- A creation request violating two independent rules: `orderId` is a
number (not a string) and `amountTokenDeposit` is the empty string. -/
def demoBadReq : Req :=
  ⟨[("status", .str "pending"), ("orderId", .num 1234),
    ("amountTokenDeposit", .str ""), ("addressTokenDeposit", .str "0x123"),
    ("chainIdTokenDeposit", .str "1"), ("destAddr", .str "0x456"),
    ("amountTokenOffer", .str "20"), ("offerId", .str "5678"),
    ("hash", .str "0x789")], [], []⟩

/-- A recorded validation error for exercising handlers that receive a
non-empty error list from their middleware. -/
def demoErr : VError := ⟨.query, "limit", "must be numeric value"⟩

/-- The order the demo request creates for "user1" (status `pending`,
hash `0x789`). -/
def demoPendingOrder : Order := newOrderDoc demoOrderBody "user1" 0

/-- The demo order after the settlement webhook (status `success`). -/
def demoSuccessOrder : Order := { demoPendingOrder with status := ORDER_STATUS.SUCCESS }

/-- A completion request body for orderId "X". -/
def completeBody : RMap := [("orderId", .str "X"), ("completionHash", .str "0xfinal")]

/-- An order owned by the DIFFERENT user "user12", whose id merely contains
"user1" as a substring. -/
def strangerOrder : Order := newOrderDoc demoOrderBody "user12" 0

/-- The orders list of the committed response of a list endpoint. -/
def respOrders (o : OrdersOut) : List Order :=
  match o.sends.head? with
  | some ⟨_, .ordersPage os _⟩ => os
  | _ => []

instance : IsTotal Order (fun a b => b.date ≤ a.date) :=
  ⟨fun a b => Nat.le_total b.date a.date⟩

instance : IsTrans Order (fun a b => b.date ≤ a.date) :=
  ⟨fun _ _ _ h1 h2 => Nat.le_trans h2 h1⟩

/-- C1: evaluated at the failing input — two identical authenticated valid
creation requests with orderId "X".  The second request does respond 404
`{msg: "This order already exists."}` (the first committed send wins), but
the duplicate branch has no `return`, so the insert still executes and the
store afterwards holds TWO documents with orderId "X", not one: the failed
creation does not leave the store unchanged. -/
theorem c1_duplicate_creation_inserts_second_document :
    clientResp (createOrderEndpoint demoOrderReq "user1" 1
        (createOrderEndpoint demoOrderReq "user1" 0 []).store)
      = some ⟨404, .message "This order already exists."⟩ ∧
    ((createOrderEndpoint demoOrderReq "user1" 1
        (createOrderEndpoint demoOrderReq "user1" 0 []).store).store.filter
      (fun o => o.orderId == "X")).length = 2 := by
  decide

/-- C9: on a validation-passing creation request, the duplicate 404
`"This order already exists."` is sent iff the supplied orderId is non-empty
AND an order with that orderId already exists; the insert runs
unconditionally (so any number of empty-orderId orders can coexist); an
empty orderId always gets the plain insert acknowledgement; and the
creation validator's orderId chain carries only `isString` — no `notEmpty`. -/
theorem c9_alreadyexists_iff_nonempty_duplicate (body : RMap) (callerId : String)
    (now : Nat) (store : List Order) :
    ((⟨404, .message "This order already exists."⟩ : Send)
        ∈ (createOrder [] body callerId now store).sends ↔
      (getStr body "orderId" ≠ "" ∧ ∃ o ∈ store, o.orderId = getStr body "orderId")) ∧
    (createOrder [] body callerId now store).store
        = store ++ [newOrderDoc body callerId now] ∧
    (getStr body "orderId" = "" →
      clientResp (createOrder [] body callerId now store) = some ⟨200, .insertAck⟩) ∧
    (∀ rl ∈ createOrderRules, rl.field = "orderId" →
      rl.checks = [(Check.isString, "must be string value")]) := by
  refine ⟨?_, ?_, ?_, ?_⟩
  · have hmemiff : (⟨404, .message "This order already exists."⟩ : Send)
        ∈ (createOrder [] body callerId now store).sends ↔
        ((store.find? (fun o => o.orderId == getStr body "orderId")).isSome
          && !(getStr body "orderId" == "")) = true := by
      cases hc : ((store.find? (fun o => o.orderId == getStr body "orderId")).isSome
          && !(getStr body "orderId" == "")) with
      | true => simp [createOrder, hc]
      | false => simp [createOrder, hc]
    rw [hmemiff, Bool.and_eq_true]
    constructor
    · rintro ⟨h1, h2⟩
      have hne : getStr body "orderId" ≠ "" := by simpa using h2
      obtain ⟨o, ho, hp⟩ := List.find?_isSome.mp h1
      exact ⟨hne, o, ho, by simpa using hp⟩
    · rintro ⟨hne, o, ho, heq⟩
      refine ⟨List.find?_isSome.mpr ⟨o, ho, by simpa using heq⟩, by simpa using hne⟩
  · simp [createOrder]
  · intro hempty
    simp [createOrder, clientResp, hempty]
  · decide

/-- C9 witness: the theorem applied to a concrete empty-orderId request over
a store already holding an empty-orderId order: no duplicate rejection, the
insert acknowledges, and two empty-orderId documents coexist. -/
theorem c9_alreadyexists_iff_nonempty_duplicate_witness :
    getStr emptyIdBody "orderId" = "" ∧
    clientResp (createOrder [] emptyIdBody "user1" 1 [newOrderDoc emptyIdBody "user1" 0])
      = some ⟨200, .insertAck⟩ ∧
    (createOrder [] emptyIdBody "user1" 1 [newOrderDoc emptyIdBody "user1" 0]).store
      = [newOrderDoc emptyIdBody "user1" 0, newOrderDoc emptyIdBody "user1" 1] :=
  ⟨by decide,
   (c9_alreadyexists_iff_nonempty_duplicate emptyIdBody "user1" 1
      [newOrderDoc emptyIdBody "user1" 0]).2.2.1 (by decide),
   by simpa using (c9_alreadyexists_iff_nonempty_duplicate emptyIdBody "user1" 1
      [newOrderDoc emptyIdBody "user1" 0]).2.1⟩

/-- C2 counterexample: `GET /orders/user` with a non-empty recorded
validation error list still responds 200 with the query result rather than
400 with the error array (the handler never calls `validateResult`). -/
theorem c2_counterexample_user_orders_ignore_errors :
    [demoErr] ≠ [] ∧
    clientResp (getUserOrders [demoErr] "user1" 0 0 [])
      = some ⟨200, .ordersPage [] 0⟩ := by
  decide

/-- C2 amended: every handler that inspects the validation result (creation,
completion, deletion, all six webhook handlers) responds 400 with the error
array and issues no store operation when the list is non-empty; the two list
endpoints ignore the validation result — they never produce a 400 and never
mutate the store; `GET /orders/user` always responds 200, and
`GET /orders/liquidity-provider` responds 200 except when its
`isActiveOffers` query value fails `JSON.parse`, where the handler throws
and no response is sent at all. -/
theorem c2_validation_gate_amended (errs : List VError) (h : errs ≠ [])
    (body : RMap) (callerId orderIdParam idTrade txHash idOffer : String)
    (now off lim : Nat) (store : List Order) (offers : List Offer)
    (v : Option String) (bAct : Option Bool) (iao : Option ParseOutcome) :
    createOrder errs body callerId now store
      = ⟨[⟨400, .errors errs⟩], store, 0, 0, 0, []⟩ ∧
    orderComplete errs body callerId store
      = ⟨[⟨400, .errors errs⟩], store, 0, 0, 0, []⟩ ∧
    deleteOrder errs orderIdParam callerId store
      = ⟨[⟨400, .errors errs⟩], store, 0, 0, 0, []⟩ ∧
    webhookOrder errs idTrade txHash store
      = ⟨[⟨400, .errors errs⟩], store, 0, 0, 0, []⟩ ∧
    webhookOfferMaxPrice errs idOffer v offers
      = ⟨[⟨400, .errors errs⟩], offers, 0, []⟩ ∧
    webhookOfferMinPrice errs idOffer v offers
      = ⟨[⟨400, .errors errs⟩], offers, 0, []⟩ ∧
    webhookOfferToken errs idOffer v offers
      = ⟨[⟨400, .errors errs⟩], offers, 0, []⟩ ∧
    webhookOfferChain errs idOffer v offers
      = ⟨[⟨400, .errors errs⟩], offers, 0, []⟩ ∧
    webhookOfferActivation errs idOffer bAct offers
      = ⟨[⟨400, .errors errs⟩], offers, 0, []⟩ ∧
    (getUserOrders errs callerId off lim store).store = store ∧
    mutationCalls (getUserOrders errs callerId off lim store) = 0 ∧
    (clientResp (getUserOrders errs callerId off lim store)).map Send.status
      = some 200 ∧
    (getLiquidityProviderOrders errs callerId iao off lim store offers).store
      = store ∧
    mutationCalls (getLiquidityProviderOrders errs callerId iao off lim store offers)
      = 0 ∧
    (∀ s ∈ (getLiquidityProviderOrders errs callerId iao off lim store offers).sends,
      s.status = 200) ∧
    (iao ≠ some ParseOutcome.invalid →
      (clientResp
          (getLiquidityProviderOrders errs callerId iao off lim store offers)).map
        Send.status = some 200) := by
  have hne : errs.isEmpty = false := by
    cases errs with
    | nil => exact absurd rfl h
    | cons a l => rfl
  have hliq :
      (getLiquidityProviderOrders errs callerId iao off lim store offers).store
          = store ∧
      mutationCalls
          (getLiquidityProviderOrders errs callerId iao off lim store offers) = 0 ∧
      (∀ s ∈ (getLiquidityProviderOrders errs callerId iao off lim store offers).sends,
        s.status = 200) ∧
      (iao ≠ some ParseOutcome.invalid →
        (clientResp
            (getLiquidityProviderOrders errs callerId iao off lim store offers)).map
          Send.status = some 200) := by
    cases iao with
    | none => exact ⟨rfl, rfl, by simp [getLiquidityProviderOrders], fun _ => rfl⟩
    | some o =>
      cases o with
      | truthy => exact ⟨rfl, rfl, by simp [getLiquidityProviderOrders], fun _ => rfl⟩
      | falsy => exact ⟨rfl, rfl, by simp [getLiquidityProviderOrders], fun _ => rfl⟩
      | invalid =>
        exact ⟨rfl, rfl, by simp [getLiquidityProviderOrders], fun hcontra =>
          absurd rfl hcontra⟩
  refine ⟨?_, ?_, ?_, ?_, ?_, ?_, ?_, ?_, ?_, rfl, rfl, rfl,
      hliq.1, hliq.2.1, hliq.2.2.1, hliq.2.2.2⟩ <;>
    simp [createOrder, orderComplete, deleteOrder, webhookOrder,
      webhookOfferMaxPrice, webhookOfferMinPrice, webhookOfferToken,
      webhookOfferChain, webhookOfferActivation, hne]

/-- C2 witness: the amended gate theorem applied at a concrete non-empty
error list: order creation responds 400 with that array and inserts
nothing. -/
theorem c2_validation_gate_amended_witness :
    ([demoErr] ≠ []) ∧
    createOrder [demoErr] demoOrderBody "user1" 0 []
      = ⟨[⟨400, .errors [demoErr]⟩], [], 0, 0, 0, []⟩ :=
  ⟨by decide,
   (c2_validation_gate_amended [demoErr] (by decide) demoOrderBody "user1" "" ""
      "" "" 0 0 0 [] [] none none none).1⟩

/-- C3 counterexample: on a webhook order request whose hash matches no
order, the committed response is the 404 `"No order found"` send — Express
commits the first send, so the claimed 200 response never reaches the
client. -/
theorem c3_counterexample_webhook_order_no_match :
    clientResp (webhookOrder [] "ext-1" "0xdead" [])
      = some ⟨404, .message "No order found"⟩ ∧
    (clientResp (webhookOrder [] "ext-1" "0xdead" [])).map Send.status
      ≠ some 200 := by
  decide

/-- C3 amended: the order webhook locates the order by `hash`; on a match
with a PENDING order it assigns the supplied external id and status
`success` and responds 200; on no match it reports not-found by responding
404 `"No order found"` (the trailing 200 send is discarded) while still
issuing the update against the empty match. -/
theorem c3_webhook_order_amended (idTrade txHash : String) (store : List Order) :
    (∀ o, store.find? (fun x => x.hash == txHash) = some o →
      o.status = ORDER_STATUS.PENDING →
      clientResp (webhookOrder [] idTrade txHash store) = some ⟨200, .updateAck 1 1⟩ ∧
      (webhookOrder [] idTrade txHash store).store
        = replaceFirst store o { o with orderId := idTrade, status := "success" }) ∧
    (store.find? (fun x => x.hash == txHash) = none →
      clientResp (webhookOrder [] idTrade txHash store)
        = some ⟨404, .message "No order found"⟩ ∧
      (webhookOrder [] idTrade txHash store).updateCalls = 1 ∧
      (webhookOrder [] idTrade txHash store).store = store) := by
  constructor
  · intro o hfind hpend
    have hmod : ({ o with orderId := idTrade, status := "success" } : Order) ≠ o := by
      intro hEq
      have hst : "success" = o.status := by
        simpa using congrArg Order.status hEq
      rw [hpend] at hst
      exact absurd hst (by decide)
    simp [webhookOrder, hfind, clientResp, hmod]
  · intro hnone
    simp [webhookOrder, hnone, clientResp]

/-- C3 witness: the amended webhook theorem at concrete inputs — a matching
pending order gets the external id and `success` status with a 200 response;
an unmatched hash yields the committed 404. -/
theorem c3_webhook_order_amended_witness :
    clientResp (webhookOrder [] "T1" "0x789" [demoPendingOrder])
      = some ⟨200, .updateAck 1 1⟩ ∧
    clientResp (webhookOrder [] "T1" "nohash" [])
      = some ⟨404, .message "No order found"⟩ :=
  ⟨((c3_webhook_order_amended "T1" "0x789" [demoPendingOrder]).1 demoPendingOrder
      (by decide) (by decide)).1,
   ((c3_webhook_order_amended "T1" "nohash" []).2 (by decide)).1⟩

/-- C4: evaluated at the failing input.  The completion handler reads
`req.body.completionHash` (part_002 line 198), but the endpoint's own
validator `setOrderCompleteValidator` allow-lists only `orderId` in the
body, so the request `{orderId:"X", completionHash:"0xfinal"}` — aimed at
the caller's owned SUCCESS order "X" — is rejected 400 before the handler
runs and no store operation happens; while a validation-passing completion
(orderId-only body) does transition the order to COMPLETION but stores the
absent value (null) as completionHash.  The endpoint can never record a
request-supplied completionHash, contradicting the handler's own read of
that field and the claim. -/
theorem c4_completion_hash_unreachable :
    setOrderCompleteValidator ⟨completeBody, [], []⟩
      = [⟨.body, "",
          "The following fields are not allowed in body: completionHash"⟩] ∧
    orderCompleteEndpoint ⟨completeBody, [], []⟩ "user1" [demoSuccessOrder]
      = ⟨[⟨400, .errors [⟨.body, "",
            "The following fields are not allowed in body: completionHash"⟩]⟩],
         [demoSuccessOrder], 0, 0, 0, []⟩ ∧
    (orderCompleteEndpoint ⟨[("orderId", .str "X")], [], []⟩ "user1"
        [demoSuccessOrder]).store
      = [{ demoSuccessOrder with
             status := ORDER_STATUS.COMPLETION,
             completionHash := none }] ∧
    clientResp (orderCompleteEndpoint ⟨[("orderId", .str "X")], [], []⟩ "user1"
        [demoSuccessOrder])
      = some ⟨200, .updateAck 1 1⟩ := by
  decide

/-- Handler-level gating of `PUT /orders/complete`: succeeds (200) iff the
store holds an order with the request's orderId, a case-insensitively
matching owner and status SUCCESS; on a match the found order transitions to
COMPLETION with the body's completionHash value; on no match it responds 404
`{msg: "No order found"}` and leaves the store unchanged. -/
theorem orderComplete_gating (body : RMap) (callerId : String)
    (store : List Order) :
    ((clientResp (orderComplete [] body callerId store)).map Send.status = some 200 ↔
      ∃ o ∈ store, o.orderId = getStr body "orderId"
        ∧ ciRegexMatch o.userId callerId = true
        ∧ o.status = ORDER_STATUS.SUCCESS) ∧
    (∀ o, store.find? (fun x => x.orderId == getStr body "orderId"
          && ciRegexMatch x.userId callerId
          && x.status == ORDER_STATUS.SUCCESS) = some o →
      clientResp (orderComplete [] body callerId store) = some ⟨200, .updateAck 1 1⟩ ∧
      (orderComplete [] body callerId store).store
        = replaceFirst store o
            { o with status := ORDER_STATUS.COMPLETION,
                     completionHash := body.get "completionHash" }) ∧
    (store.find? (fun x => x.orderId == getStr body "orderId"
          && ciRegexMatch x.userId callerId
          && x.status == ORDER_STATUS.SUCCESS) = none →
      orderComplete [] body callerId store
        = ⟨[⟨404, .message "No order found"⟩], store, 0, 0, 0, []⟩) := by
  cases hf : store.find? (fun x => x.orderId == getStr body "orderId"
      && ciRegexMatch x.userId callerId
      && x.status == ORDER_STATUS.SUCCESS) with
  | none =>
    refine ⟨?_, ?_, fun _ => by simp [orderComplete, hf]⟩
    · simp only [orderComplete, hf, clientResp, List.isEmpty_nil, if_true]
      constructor
      · intro hcontra
        simp at hcontra
      · rintro ⟨o, ho, h1, h2, h3⟩
        exfalso
        apply List.find?_eq_none.mp hf o ho
        simp [h1, h2, h3]
    · intro o ho
      simp at ho
  | some o =>
    have hp := List.find?_some hf
    rw [Bool.and_eq_true, Bool.and_eq_true] at hp
    obtain ⟨⟨h1, h2⟩, h3⟩ := hp
    have h1e : o.orderId = getStr body "orderId" := by simpa using h1
    have h3e : o.status = ORDER_STATUS.SUCCESS := by simpa using h3
    have hmem := List.mem_of_find?_eq_some hf
    have hmod :
        ({ o with
             status := ORDER_STATUS.COMPLETION,
             completionHash := body.get "completionHash" } : Order) ≠ o := by
      intro hEq
      have hst : ORDER_STATUS.COMPLETION = o.status := by
        simpa using congrArg Order.status hEq
      rw [h3e] at hst
      exact absurd hst (by decide)
    refine ⟨?_, ?_, ?_⟩
    · constructor
      · intro _
        exact ⟨o, hmem, h1e, h2, h3e⟩
      · intro _
        simp [orderComplete, hf, clientResp, hmod]
    · intro o' ho'
      injection ho' with ho'
      subst ho'
      simp [orderComplete, hf, clientResp, hmod]
    · intro hcontra
      simp at hcontra

/-- The date-descending sort is a permutation of its input. -/
theorem sortDateDesc_perm (l : List Order) : (sortDateDesc l).Perm l :=
  List.perm_insertionSort _ l

/-- The date-descending sort is sorted by non-increasing date. -/
theorem sortDateDesc_sorted (l : List Order) :
    (sortDateDesc l).Sorted (fun a b => b.date ≤ a.date) :=
  List.sorted_insertionSort _ l

/-- C5 counterexample: the caller "user1" receives the order of the distinct
user "user12" — the `$regex` filter is a substring match, not
case-insensitive equality, so another user's order is included. -/
theorem c5_counterexample_substring_not_equality :
    strangerOrder ∈ respOrders (getUserOrders [] "user1" 0 0 [strangerOrder]) ∧
    strangerOrder.userId ≠ "user1" ∧
    lowerEq strangerOrder.userId "user1" = false := by
  decide

/-- C5 amended: `GET /orders/user` returns exactly the orders whose userId
case-insensitively CONTAINS the caller identity as a substring (Mongo
`$regex` with the `i` option), sorted by date descending and paginated by
offset and limit. -/
theorem c5_user_orders_amended (callerId : String) (off lim : Nat)
    (store : List Order) :
    respOrders (getUserOrders [] callerId off lim store)
      = applyLimit lim ((sortDateDesc (store.filter
          (fun o => ciRegexMatch o.userId callerId))).drop off) ∧
    (∀ o ∈ respOrders (getUserOrders [] callerId off lim store),
      ciRegexMatch o.userId callerId = true) ∧
    (respOrders (getUserOrders [] callerId off lim store)).Sorted
      (fun a b => b.date ≤ a.date) ∧
    (off = 0 → lim = 0 →
      (respOrders (getUserOrders [] callerId off lim store)).Perm
        (store.filter (fun o => ciRegexMatch o.userId callerId))) := by
  have hresp : respOrders (getUserOrders [] callerId off lim store)
      = applyLimit lim ((sortDateDesc (store.filter
          (fun o => ciRegexMatch o.userId callerId))).drop off) := rfl
  refine ⟨hresp, ?_, ?_, ?_⟩
  · intro o ho
    rw [hresp] at ho
    have h1 : o ∈ (sortDateDesc (store.filter
        (fun o => ciRegexMatch o.userId callerId))).drop off := by
      by_cases hl : lim = 0
      · simpa [applyLimit, hl] using ho
      · exact List.take_subset _ _ (by simpa [applyLimit, hl] using ho)
    have h2 : o ∈ sortDateDesc (store.filter
        (fun o => ciRegexMatch o.userId callerId)) :=
      List.drop_subset _ _ h1
    exact (List.mem_filter.mp (((sortDateDesc_perm _).mem_iff).mp h2)).2
  · rw [hresp]
    have hs := @List.Pairwise.drop _ _ _ off
      (sortDateDesc_sorted (store.filter (fun o => ciRegexMatch o.userId callerId)))
    by_cases hl : lim = 0
    · simpa [applyLimit, hl] using hs
    · simpa [applyLimit, hl] using @List.Pairwise.take _ _ _ lim hs
  · intro hoff hlim
    rw [hresp, hoff, hlim]
    simpa [applyLimit] using
      sortDateDesc_perm (store.filter (fun o => ciRegexMatch o.userId callerId))

/-- C5 witness: the amended listing applied at a concrete store: the whole
unpaginated result for "user1" over a one-order store is that order, and it
satisfies the substring filter. -/
theorem c5_user_orders_amended_witness :
    respOrders (getUserOrders [] "user1" 0 0 [demoPendingOrder])
      = applyLimit 0 ((sortDateDesc ([demoPendingOrder].filter
          (fun o => ciRegexMatch o.userId "user1"))).drop 0) ∧
    (respOrders (getUserOrders [] "user1" 0 0 [demoPendingOrder])).Perm
      ([demoPendingOrder].filter (fun o => ciRegexMatch o.userId "user1")) :=
  ⟨(c5_user_orders_amended "user1" 0 0 [demoPendingOrder]).1,
   (c5_user_orders_amended "user1" 0 0 [demoPendingOrder]).2.2.2 rfl rfl⟩

/-- The collected error list has one entry per failed check. -/
theorem runRules_length (rules : List Rule) (r : Req) :
    (runRules rules r).length = violations rules r := by
  induction rules with
  | nil => rfl
  | cons rl rest ih =>
    simp [runRules, violations, evalRule, List.length_append, ih]

/-- An error is collected exactly when some declared chain contributes it. -/
theorem mem_runRules (e : VError) (rules : List Rule) (r : Req) :
    e ∈ runRules rules r ↔ ∃ rl ∈ rules, e ∈ evalRule r rl := by
  induction rules with
  | nil => simp [runRules]
  | cons rl rest ih => simp [runRules, ih]

/-- C6: the validator reports every independently-violated check — the error
array has exactly as many entries as there are failed checks, every entry
corresponds to a declared rule with its section as `location`, its field as
`param` and its declared message, and every failed check of every rule
contributes its entry: never only the first error. -/
theorem c6_every_violation_reported (rules : List Rule) (r : Req) :
    (runRules rules r).length = violations rules r ∧
    (∀ e ∈ runRules rules r, ∃ rl ∈ rules,
      e.location = rl.loc ∧ e.param = rl.field ∧
      ∃ cm ∈ rl.checks,
        checkPasses cm.1 ((sectOf r rl.loc).get rl.field) = false ∧ e.msg = cm.2) ∧
    (∀ rl ∈ rules, ∀ cm ∈ rl.checks,
      checkPasses cm.1 ((sectOf r rl.loc).get rl.field) = false →
        (⟨rl.loc, rl.field, cm.2⟩ : VError) ∈ runRules rules r) := by
  refine ⟨runRules_length rules r, ?_, ?_⟩
  · intro e he
    obtain ⟨rl, hrl, hev⟩ := (mem_runRules e rules r).mp he
    simp only [evalRule] at hev
    obtain ⟨cm, hcm, hemk⟩ := List.mem_map.mp hev
    obtain ⟨hmemchk, hfail⟩ := List.mem_filter.mp hcm
    refine ⟨rl, hrl, ?_, ?_, cm, hmemchk, ?_, ?_⟩
    · rw [← hemk]
    · rw [← hemk]
    · simpa using hfail
    · rw [← hemk]
  · intro rl hrl cm hcm hfail
    apply (mem_runRules _ rules r).mpr
    refine ⟨rl, hrl, ?_⟩
    simp only [evalRule]
    exact List.mem_map.mpr ⟨cm, List.mem_filter.mpr ⟨hcm, by simp [hfail]⟩, rfl⟩

/-- C6 witness: on the concrete request with two independent violations
(non-string orderId, empty amountTokenDeposit) the array counts exactly the
violations and lists both, in rule order, each with its param. -/
theorem c6_every_violation_reported_witness :
    (runRules createOrderRules demoBadReq).length
      = violations createOrderRules demoBadReq ∧
    runRules createOrderRules demoBadReq
      = [⟨.body, "orderId", "must be string value"⟩,
         ⟨.body, "amountTokenDeposit", "must not be empty"⟩] :=
  ⟨(c6_every_violation_reported createOrderRules demoBadReq).1, by decide⟩

/-- C7: all extra fields of a section are grouped into ONE error whose
message comma-joins them, and an unexpected body field `foo` together with an
unexpected query field `bar` on an otherwise valid creation request yields
exactly two errors in the one response, one per location. -/
theorem c7_unexpected_fields_grouped_per_location (m : RMap)
    (allowed : List String) (loc : Loc)
    (h : m.keys.filter (fun k => !(allowed.contains k)) ≠ []) :
    validateFields m allowed loc
      = [⟨loc, "",
          "The following fields are not allowed in " ++ locName loc ++ ": "
            ++ joinComma (m.keys.filter (fun k => !(allowed.contains k)))⟩] ∧
    createOrderValidator ⟨demoOrderBody ++ [("foo", .str "v")], [("bar", .str "w")], []⟩
      = [⟨.body, "", "The following fields are not allowed in body: foo"⟩,
         ⟨.query, "", "The following fields are not allowed in query: bar"⟩] := by
  refine ⟨?_, by decide⟩
  simp only [validateFields]
  rw [if_neg]
  intro hcontra
  rw [List.isEmpty_iff] at hcontra
  exact absurd hcontra h

/-- C7 witness: the grouping theorem applied to a body carrying two extra
fields: one single error listing both, comma-joined. -/
theorem c7_unexpected_fields_grouped_per_location_witness :
    validateFields [("foo", .str "v"), ("baz", .str "w")] [] .body
      = [⟨.body, "",
          "The following fields are not allowed in body: "
            ++ joinComma (RMap.keys [("foo", JVal.str "v"), ("baz", JVal.str "w")]
                |>.filter (fun k => !(List.contains [] k)))⟩] :=
  (c7_unexpected_fields_grouped_per_location
      [("foo", .str "v"), ("baz", .str "w")] [] .body (by decide)).1

/-- C8 counterexample: the max-price webhook handler RETURNS early when no
offer matches — it responds 400 `"No offer found"` and issues no update at
all, contrary to the claim that every offer hook proceeds to update the
empty match. -/
theorem c8_counterexample_max_price_returns_early :
    (webhookOfferMaxPrice [] "offer-1" (some "9") []).updateCalls = 0 ∧
    (webhookOfferMaxPrice [] "offer-1" (some "9") []).sends
      = [⟨400, .message "No offer found"⟩] := by
  decide

/-- C8 amended: of the five offer webhook handlers, min-price, token and
chain report 400 `"No offer found"` and still issue the update against the
empty match; activation-deactivation does the same but reports 404
`"Not found."`; max-price alone returns early with 400 `"No offer found"`
and issues no update. -/
theorem c8_soft_fail_hooks_amended (idOffer : String) (v : Option String)
    (b : Option Bool) (offers : List Offer)
    (h : offers.find? (fun f => f.offerId == idOffer) = none) :
    (webhookOfferMinPrice [] idOffer v offers).updateCalls = 1 ∧
    offerResp (webhookOfferMinPrice [] idOffer v offers)
      = some ⟨400, .message "No offer found"⟩ ∧
    (webhookOfferToken [] idOffer v offers).updateCalls = 1 ∧
    offerResp (webhookOfferToken [] idOffer v offers)
      = some ⟨400, .message "No offer found"⟩ ∧
    (webhookOfferChain [] idOffer v offers).updateCalls = 1 ∧
    offerResp (webhookOfferChain [] idOffer v offers)
      = some ⟨400, .message "No offer found"⟩ ∧
    (webhookOfferActivation [] idOffer b offers).updateCalls = 1 ∧
    offerResp (webhookOfferActivation [] idOffer b offers)
      = some ⟨404, .message "Not found."⟩ ∧
    (webhookOfferMaxPrice [] idOffer v offers).updateCalls = 0 ∧
    offerResp (webhookOfferMaxPrice [] idOffer v offers)
      = some ⟨400, .message "No offer found"⟩ := by
  simp [webhookOfferMinPrice, webhookOfferToken, webhookOfferChain,
    webhookOfferActivation, webhookOfferMaxPrice, offerResp, h]

/-- C8 witness: the amended statement at a concrete missing offer: min-price
still issues its update, activation reports `"Not found."`. -/
theorem c8_soft_fail_hooks_amended_witness :
    (webhookOfferMinPrice [] "offer-1" (some "2") []).updateCalls = 1 ∧
    offerResp (webhookOfferActivation [] "offer-1" none [])
      = some ⟨404, .message "Not found."⟩ :=
  ⟨(c8_soft_fail_hooks_amended "offer-1" (some "2") none [] (by decide)).1,
   (c8_soft_fail_hooks_amended "offer-1" (some "2") none []
      (by decide)).2.2.2.2.2.2.2.1⟩

/-- C10 counterexample: a liquidity-provider request whose `isActiveOffers`
query value is present but not valid JSON: `JSON.parse` throws and the
handler sends NOTHING — the query does not execute and no 200 response is
produced, refuting the claim's "for every request ... responds 200". -/
theorem c10_counterexample_unparseable_flag_no_response :
    (getLiquidityProviderOrders [] "user1" (some .invalid) 0 0 [] []).sends
      = [] ∧
    clientResp (getLiquidityProviderOrders [] "user1" (some .invalid) 0 0 [] [])
      = none := by
  decide

/-- C10 amended: the two list endpoints never inspect the recorded
validation result — their output is literally independent of it, no 400
validation response is ever produced and no store mutation is issued;
`GET /orders/user` always sends the single 200 query result, and
`GET /orders/liquidity-provider` does too except when its `isActiveOffers`
query value fails `JSON.parse`, where the handler throws and sends no
response at all. -/
theorem c10_list_endpoints_ignore_validation (errs : List VError)
    (callerId : String) (iao : Option ParseOutcome) (off lim : Nat)
    (store : List Order) (offers : List Offer) :
    getUserOrders errs callerId off lim store
      = getUserOrders [] callerId off lim store ∧
    getLiquidityProviderOrders errs callerId iao off lim store offers
      = getLiquidityProviderOrders [] callerId iao off lim store offers ∧
    (∃ page total, (getUserOrders errs callerId off lim store).sends
        = [⟨200, .ordersPage page total⟩]) ∧
    (iao ≠ some ParseOutcome.invalid →
      ∃ page total,
        (getLiquidityProviderOrders errs callerId iao off lim store offers).sends
          = [⟨200, .ordersPage page total⟩]) ∧
    (iao = some ParseOutcome.invalid →
      (getLiquidityProviderOrders errs callerId iao off lim store offers).sends
        = []) ∧
    (∀ s ∈ (getLiquidityProviderOrders errs callerId iao off lim store offers).sends,
      s.status = 200) ∧
    mutationCalls (getUserOrders errs callerId off lim store) = 0 ∧
    mutationCalls
      (getLiquidityProviderOrders errs callerId iao off lim store offers) = 0 := by
  cases iao with
  | none =>
    exact ⟨rfl, rfl, ⟨_, _, rfl⟩, fun _ => ⟨_, _, rfl⟩,
      fun hcontra => by simp at hcontra,
      by simp [getLiquidityProviderOrders], rfl, rfl⟩
  | some o =>
    cases o with
    | truthy =>
      exact ⟨rfl, rfl, ⟨_, _, rfl⟩, fun _ => ⟨_, _, rfl⟩,
        fun hcontra => by simp at hcontra,
        by simp [getLiquidityProviderOrders], rfl, rfl⟩
    | falsy =>
      exact ⟨rfl, rfl, ⟨_, _, rfl⟩, fun _ => ⟨_, _, rfl⟩,
        fun hcontra => by simp at hcontra,
        by simp [getLiquidityProviderOrders], rfl, rfl⟩
    | invalid =>
      exact ⟨rfl, rfl, ⟨_, _, rfl⟩, fun hcontra => absurd rfl hcontra,
        fun _ => rfl, by simp [getLiquidityProviderOrders], rfl, rfl⟩

/-- C10 witness: the amended statement at concrete inputs — with a parseable
(absent) flag the liquidity endpoint sends the single 200 query result even
under a non-empty error list, and with an unparseable flag it sends
nothing. -/
theorem c10_list_endpoints_ignore_validation_witness :
    (∃ page total,
      (getLiquidityProviderOrders [demoErr] "user1" none 0 0 [] []).sends
        = [⟨200, .ordersPage page total⟩]) ∧
    (getLiquidityProviderOrders [demoErr] "user1" (some .invalid) 0 0 [] []).sends
      = [] :=
  ⟨(c10_list_endpoints_ignore_validation [demoErr] "user1" none 0 0 [] []).2.2.2.1
      (by simp),
   (c10_list_endpoints_ignore_validation [demoErr] "user1" (some .invalid) 0 0
      [] []).2.2.2.2.1 rfl⟩

end Delight
